import Mathlib

/-!
Verification of the natural-language specification of the PrimoBoost web
application against a shallow embedding of its TypeScript source.

Sections, in order:
1. safeFetch retry helper (src/services/geminiService.ts)
2. create-order serverless function (supabase/functions/create-order/index.ts)
3. AI proxy netlify handler (netlify ai-proxy function)
4. interview-room stage machine, countdown timer and auto-submit logic
   (src/components/interview/MockInterviewRoom.tsx)
5. hybrid question selection (src/services/hybridQuestionService.ts)

All definitions are transliterated from the source; JavaScript numbers on
the code paths modelled here carry integer or small decimal values that
binary64 arithmetic represents exactly, so they are embedded as Nat / Int /
Rat.
-/

namespace PB

/-! ## Section 1: safeFetch (src/services/geminiService.ts) -/

/-- Substring test used to model the JavaScript `String.prototype.includes`:
`charsHasPref n h` is true when `n` is a prefix of `h`. -/
def charsHasPref : List Char → List Char → Bool
  | [], _ => true
  | _ :: _, [] => false
  | n :: ns, h :: hs => n == h && charsHasPref ns hs

/-- True when `needle` occurs as a contiguous substring of the second list. -/
def charsContains (needle : List Char) : List Char → Bool
  | [] => needle.isEmpty
  | h :: hs => charsHasPref needle (h :: hs) || charsContains needle hs

/-- Model of the JavaScript `hay.includes(needle)`. -/
def strIncludes (hay needle : String) : Bool :=
  charsContains needle.toList hay.toList

/-- An HTTP response as safeFetch observes it: the status code together with
the error object extracted from the JSON body, when the body parses as JSON
and carries `error.message` (paired with the optional numeric `error.code`).
`errInfo = none` models a body that does not parse or has no error message. -/
structure Response where
  status : Nat
  errInfo : Option (String × Option Nat)
  deriving Repr, DecidableEq

/-- Fetch-API semantics of `res.ok`: true exactly for 2xx status codes. -/
def Response.ok (r : Response) : Bool :=
  decide (200 ≤ r.status ∧ r.status < 300)

/-- The message safeFetch extracts from a non-ok response, mirroring
`let msg = ...` and the JSON-parse refinement (geminiService.ts lines 45-50);
`j.error.code || res.status` makes a missing or zero code fall back to the
status. -/
def errMsgOf (r : Response) : String :=
  match r.errInfo with
  | none => "AgentRouter error " ++ toString r.status
  | some (m, code) =>
    if m = "" then "AgentRouter error " ++ toString r.status
    else
      m ++ " (Code: " ++
        (match code with
          | some c => if c = 0 then toString r.status else toString c
          | none => toString r.status) ++ ")"

/-- The message of the error safeFetch throws for a non-ok response that it
does not retry (geminiService.ts lines 51-58). -/
def thrownMsgOf (r : Response) : String :=
  if r.status = 400 then "Bad Request: " ++ errMsgOf r
  else if r.status = 401 then "Unauthorized: " ++ errMsgOf r
  else if r.status = 402 then "Insufficient Credits: " ++ errMsgOf r
  else errMsgOf r

/-- One `await fetch(...)` either yields a response or rejects with a network
error carrying a message. -/
inductive FetchEvent where
  | resp (r : Response)
  | netErr (msg : String)
  deriving Repr, DecidableEq

/-- Outcome of safeFetch: the returned response or the thrown error message. -/
inductive SFOutcome where
  | ok (r : Response)
  | err (msg : String)
  deriving Repr, DecidableEq

/-- Result of running safeFetch: outcome, number of fetch calls performed, and
the list of backoff delays slept, in order. -/
structure SFResult where
  outcome : SFOutcome
  attempts : Nat
  delays : List Nat
  deriving Repr, DecidableEq

/-- Decision taken by one iteration of the safeFetch while-loop. -/
inductive StepRes where
  | ret (r : Response)
  | retry
  | fail (m : String)
  deriving Repr, DecidableEq

/-- The catch block of safeFetch (geminiService.ts lines 61-67): an error
whose message contains one of the network markers is retried (throwing the
`Network error after N retries` wrapper once the bound is reached, where
`rem = 0` encodes `retries + 1 >= maxRetries`); any other error propagates. -/
def catchFilter (maxRetries rem : Nat) (m : String) : StepRes :=
  if strIncludes m ("Failed to fetch") || strIncludes m ("NetworkError") then
    if rem = 0 then
      .fail ("Network error after " ++ toString maxRetries ++ " retries: " ++ m)
    else .retry
  else .fail m

/-- One iteration of the safeFetch while-loop body (geminiService.ts lines
42-67). `rem` is `maxRetries - retries - 1`, so `rem = 0` means the increment
performed on a retryable failure reaches the bound. Every `throw` inside the
try block is routed through `catchFilter`, exactly as the enclosing
try/catch does. -/
def iterStep (maxRetries rem : Nat) : FetchEvent → StepRes
  | .netErr m => catchFilter maxRetries rem m
  | .resp r =>
    if r.ok then .ret r
    else
      if r.status = 400 then
        catchFilter maxRetries rem ("Bad Request: " ++ errMsgOf r)
      else if r.status = 401 then
        catchFilter maxRetries rem ("Unauthorized: " ++ errMsgOf r)
      else if r.status = 402 then
        catchFilter maxRetries rem ("Insufficient Credits: " ++ errMsgOf r)
      else if r.status = 429 ∨ 500 ≤ r.status then
        if rem = 0 then
          catchFilter maxRetries rem
            ("Failed after " ++ toString maxRetries ++ " retries: " ++ errMsgOf r)
        else .retry
      else catchFilter maxRetries rem (errMsgOf r)

/-- The safeFetch while-loop. `seq` gives the result of the k-th fetch call,
`rem = maxRetries - retries` counts the remaining loop iterations, `attempt`
the fetch calls already made, `delay` the current backoff, and `acc` the
delays slept so far (most recent first). -/
def safeFetchGo (seq : Nat → FetchEvent) (maxRetries : Nat) :
    Nat → Nat → Nat → List Nat → SFResult
  | 0, attempt, _, acc =>
    ⟨.err ("Failed after " ++ toString maxRetries ++ " retries"), attempt, acc.reverse⟩
  | rem + 1, attempt, delay, acc =>
    match iterStep maxRetries rem (seq attempt) with
    | .ret r => ⟨.ok r, attempt + 1, acc.reverse⟩
    | .fail m => ⟨.err m, attempt + 1, acc.reverse⟩
    | .retry => safeFetchGo seq maxRetries rem (attempt + 1) (delay * 2) (delay :: acc)

/-- Constant MAX_RETRIES from geminiService.ts. -/
def MAX_RETRIES : Nat := 3

/-- Constant INITIAL_RETRY_DELAY_MS from geminiService.ts. -/
def INITIAL_RETRY_DELAY_MS : Nat := 1000

/-- Model of `safeFetch(options, maxRetries)`.  The fetch results are the
input sequence `seq`. -/
def safeFetch (seq : Nat → FetchEvent) (maxRetries : Nat) : SFResult :=
  safeFetchGo seq maxRetries maxRetries 0 INITIAL_RETRY_DELAY_MS []

/-- Model of `safeFetch(options)` with the default retry bound. -/
def safeFetchD (seq : Nat → FetchEvent) : SFResult :=
  safeFetch seq MAX_RETRIES

/-! ## Section 2: create-order (supabase/functions/create-order/index.ts) -/

/-- ASCII lower-casing of one character, modelling
`String.prototype.toLowerCase` on the coupon codes this code path compares. -/
def lowerChar (c : Char) : Char :=
  if 65 ≤ c.toNat ∧ c.toNat ≤ 90 then Char.ofNat (c.toNat + 32) else c

/-- Model of `s.toLowerCase()`. -/
def lowerStr (s : String) : String :=
  ⟨s.data.map lowerChar⟩

/-- The JSON request body of create-order (interface CreateOrderRequest).
Amounts are in paise; the JavaScript numbers carried here are embedded as
rationals. `selectedAddOns` is the key/value list of the optional object. -/
structure CreateOrderRequest where
  planId : String
  amount : ℚ
  couponCode : Option String
  walletDeduction : Option ℚ
  addOnsTotal : Option ℚ
  selectedAddOns : List (String × ℚ)
  deriving Repr, DecidableEq

/-- The row inserted into payment_transactions (index.ts lines 144-158),
restricted to the fields computed by this function (ids generated by
Razorpay and the database are omitted). -/
structure PaymentTransaction where
  plan_id : Option String
  status : String
  amount : ℚ
  coupon_code : Option String
  discount_amount : ℚ
  final_amount : ℚ
  purchase_type : String
  wallet_deduction_amount : ℚ
  deriving Repr, DecidableEq

/-- purchaseType computation (index.ts lines 124-126); `selectedAddOns &&
Object.keys(selectedAddOns).length > 0` is a nonemptiness test. -/
def purchaseTypeOf (req : CreateOrderRequest) : String :=
  if req.planId = "addon_only_purchase" then "addon_only"
  else if req.selectedAddOns.length > 0 then "plan_with_addons"
  else "plan"

/-- Discount computation (index.ts lines 128-142): for the DIWALI coupon the
original price is reconstructed as `amount / 0.1` and the discount is
`Math.floor(originalPlanPrice * 0.9)`; any other coupon leaves 0. -/
def discountAmountOf (req : CreateOrderRequest) : ℚ :=
  match req.couponCode with
  | some c =>
    if lowerStr c = "diwali" then
      ((⌊(req.amount / (1/10)) * (9/10)⌋ : ℤ) : ℚ)
    else 0
  | none => 0

/-- The payment_transactions insert (index.ts lines 144-158). `discountAmount
|| 0` and `walletDeduction || 0` map a missing value to 0 (and leave the
value 0 unchanged, as JavaScript falsiness does). -/
def createOrderInsert (req : CreateOrderRequest) : PaymentTransaction :=
  let discountAmount := discountAmountOf req
  let wallet := req.walletDeduction.getD 0
  { plan_id := if req.planId = "addon_only_purchase" then none else some req.planId
    status := "pending"
    amount := req.amount + discountAmount + wallet
    coupon_code := req.couponCode.map lowerStr
    discount_amount := discountAmount
    final_amount := req.amount
    purchase_type := purchaseTypeOf req
    wallet_deduction_amount := wallet }

/-- Body of the create-order function from the field-presence check onwards,
with authentication and the Razorpay order creation abstracted as having
succeeded (they do not affect the validated/inserted data).
`couponUseCount` is the count returned by the payment_transactions query for
this user and the lower-cased coupon with status in {success, pending}
(index.ts lines 57-62); `ipDiwaliCount` is the count returned by the
ip_coupon_usage query for the client IP (lines 84-88). The result is the
inserted row, or the message of the thrown error, which the outer catch
returns with HTTP status 400. -/
def createOrder (req : CreateOrderRequest) (couponUseCount ipDiwaliCount : Nat) :
    Except String PaymentTransaction :=
  if req.planId = "" then .error ("Missing required fields: planId and amount")
  else
    match req.couponCode with
    | some c =>
      if couponUseCount > 0 then
        if lowerStr c = "diwali" then
          .error ("You have already redeemed your Diwali 90% OFF coupon. Each user can use this offer only once.")
        else
          .error ("Coupon \"" ++ c ++ "\" has already been used by this account.")
      else if lowerStr c = "diwali" ∧ ipDiwaliCount > 0 then
        .error ("This Diwali offer has already been claimed from your network. Each household/IP can use it only once.")
      else .ok (createOrderInsert req)
    | none => .ok (createOrderInsert req)

/-! ## Section 3: AI proxy netlify handler (unnamed netlify function) -/

/-- One element of the `messages` array. -/
structure Message where
  role : String
  content : String
  deriving Repr, DecidableEq

/-- The `messages` field of the parsed body: absent (or present as a falsy
value), present but not an array, or an actual array. -/
inductive MessagesField where
  | missing
  | notArray
  | arr (ms : List Message)
  deriving Repr, DecidableEq

/-- The JSON request body of the proxy (interface RequestBody), with each
field optional as destructuring defaults treat them. -/
structure ReqBody where
  model : Option String
  messages : MessagesField
  temperature : Option ℚ
  max_tokens : Option ℚ
  deriving Repr, DecidableEq

/-- Result of `JSON.parse(event.body || ...)`: a parse failure lands in the
outer catch. -/
inductive BodyParse where
  | failed
  | parsed (b : ReqBody)
  deriving Repr, DecidableEq

/-- The handler event, restricted to the fields the handler reads. -/
structure HEvent where
  httpMethod : String
  body : BodyParse
  deriving Repr, DecidableEq

/-- The JSON body forwarded to the upstream API (handler lines 72-77): it
contains exactly these four fields. -/
structure UpstreamPayload where
  model : String
  messages : List Message
  temperature : ℚ
  max_tokens : ℚ
  deriving Repr, DecidableEq

/-- The parts of the upstream JSON response the handler reads on a non-ok
status: `data.error?.message` and `data.error?.code`. -/
structure UpstreamData where
  errMessage : Option String
  errCode : Option Nat
  deriving Repr, DecidableEq

/-- Behaviour of the upstream fetch: it completes with a response before the
30-second timeout, the timeout fires first (so `controller.abort()` makes
fetch reject with an AbortError), or fetch rejects with some other error. -/
inductive FetchBehavior where
  | completes (status : Nat) (data : UpstreamData)
  | timesOut
  | fails (name : String) (msg : String)
  deriving Repr, DecidableEq

/-- What the handler returns: HTTP status, the `error` field of the JSON body
when the response is an error, whether `controller.abort()` was invoked, and
the payload sent upstream (none when no upstream call was made). -/
structure HandlerResult where
  statusCode : Nat
  errorMsg : Option String
  aborted : Bool
  upstreamPayload : Option UpstreamPayload
  deriving Repr, DecidableEq

/-- The AI proxy handler. `apiKeyConfigured` models the presence of the
AGENTROUTER_API_KEY environment variable. -/
def aiProxyHandler (ev : HEvent) (apiKeyConfigured : Bool) (fb : FetchBehavior) :
    HandlerResult :=
  if ev.httpMethod = "OPTIONS" then ⟨204, none, false, none⟩
  else if ev.httpMethod ≠ "POST" then ⟨405, some ("Method not allowed"), false, none⟩
  else if !apiKeyConfigured then ⟨500, some ("Server configuration error"), false, none⟩
  else
    match ev.body with
    | .failed => ⟨502, some ("Failed to process AI request"), false, none⟩
    | .parsed b =>
      match b.messages with
      | .missing => ⟨400, some ("Invalid request: messages array required"), false, none⟩
      | .notArray => ⟨400, some ("Invalid request: messages array required"), false, none⟩
      | .arr ms =>
        let payload : UpstreamPayload :=
          { model := b.model.getD ("gpt-4o")
            messages := ms
            temperature := b.temperature.getD (7/10)
            max_tokens := b.max_tokens.getD 2000 }
        match fb with
        | .completes status data =>
          if 200 ≤ status ∧ status < 300 then ⟨200, none, false, some payload⟩
          else
            ⟨status,
              some (match data.errMessage with
                | some m => if m = "" then "AgentRouter API error" else m
                | none => "AgentRouter API error"),
              false, some payload⟩
        | .timesOut =>
          ⟨504, some ("Request timeout after 30 seconds"), true, some payload⟩
        | .fails name _ =>
          if name = "AbortError" then
            ⟨504, some ("Request timeout after 30 seconds"), false, some payload⟩
          else ⟨502, some ("Failed to process AI request"), false, some payload⟩

/-! ## Section 4: interview room (MockInterviewRoom.tsx) -/

/-- The InterviewStage union type (MockInterviewRoom.tsx line 19 and the
part_004 variant line 22). -/
inductive InterviewStage where
  | loading
  | ready
  | question
  | listening
  | processing
  | feedback
  | completed
  deriving Repr, DecidableEq

/-- The events that make the component call setStage, each named after the
code path performing the transition. -/
inductive RoomEvent where
  | initSuccess
  | beginQuestion
  | listenStart
  | submitAnswer
  | feedbackSaved
  | advance (hasMore : Bool)
  | processFailed (hasMore : Bool)
  deriving Repr, DecidableEq

/-- Stage transitions of MockInterviewRoom, each case one setStage call in
its calling context: initializeInterview sets ready from the initial
loading; startQuestion (Start-Interview button, rendered in ready) sets
question; startListening (timeout after the question is spoken) sets
listening; stopListening (submit/auto-submit, available while listening)
sets processing; processAnswer sets feedback on success, and its catch calls
moveToNextQuestion straight from processing; moveToNextQuestion (3-second
feedback timeout) sets question when questions remain, otherwise
completeInterview sets completed. -/
def stageStep : InterviewStage → RoomEvent → Option InterviewStage
  | .loading, .initSuccess => some .ready
  | .ready, .beginQuestion => some .question
  | .question, .listenStart => some .listening
  | .listening, .submitAnswer => some .processing
  | .processing, .feedbackSaved => some .feedback
  | .feedback, .advance true => some .question
  | .feedback, .advance false => some .completed
  | .processing, .processFailed true => some .question
  | .processing, .processFailed false => some .completed
  | _, _ => none

/-- Specification-side definition, following the words of the spec only: the
immediate successor in the linear order "loading → ready → question →
listening → processing → feedback → completed". -/
def specLinearSucc : InterviewStage → Option InterviewStage
  | .loading => some .ready
  | .ready => some .question
  | .question => some .listening
  | .listening => some .processing
  | .processing => some .feedback
  | .feedback => some .completed
  | .completed => none

/-- Run of the stage machine over a list of events. -/
def stageRun : InterviewStage → List RoomEvent → Option InterviewStage
  | s, [] => some s
  | s, e :: es =>
    match stageStep s e with
    | some s2 => stageRun s2 es
    | none => none

/-- The component state the countdown timer reads and writes. timeRemaining
is a JavaScript number initialised to `config.durationMinutes * 60`; it is
embedded as an integer so that the clamp in the tick is observable. -/
structure TimerState where
  stage : InterviewStage
  isPaused : Bool
  timeRemaining : Int
  deriving Repr, DecidableEq

/-- One firing of the 1-second countdown interval (MockInterviewRoom.tsx
lines 86-108). The effect installs the interval exactly while
`!isPaused && stage === listening` and clears it otherwise, so a tick in any
other configuration does not occur and is modelled as a no-op. The Bool
returned is whether handleEndInterview was invoked on this tick. -/
def timerTick (s : TimerState) : TimerState × Bool :=
  if s.stage = .listening ∧ s.isPaused = false then
    if s.timeRemaining ≤ 1 then ({ s with timeRemaining := 0 }, true)
    else ({ s with timeRemaining := s.timeRemaining - 1 }, false)
  else (s, false)

/-- Iterated ticks of the countdown interval. -/
def timerRun (s : TimerState) : Nat → TimerState
  | 0 => s
  | n + 1 => timerRun (timerTick s).1 n

/-- The per-question auto-submit state of the part_004 variant:
autoSubmitTriggeredRef, hasStartedSpeaking and the minimumSpeechDuration
accumulator (incremented by 0.1 per speech callback; the increment is exact
here, as the claim reads it). -/
structure AutoSubmitState where
  autoSubmitTriggered : Bool
  hasStartedSpeaking : Bool
  minimumSpeechDuration : ℚ
  deriving Repr, DecidableEq

/-- State right after startListening resets the auto-submit machinery
(part_004 lines 328-331). -/
def resetAutoSubmit : AutoSubmitState :=
  ⟨false, false, 0⟩

/-- Events interleaving the 100 ms silence-check ticks with the speech
callbacks of the speech activity detector. -/
inductive ASEvent where
  | check (detectorInit : Bool) (silence : ℚ)
  | speech
  deriving Repr, DecidableEq

/-- Body of the silence-check interval (part_004 lines 100-127):
`countdown = Math.max(0, 10 - currentSilence)`; auto-submit fires only when
the countdown is 0, the ref guard is not yet set, the user has started
speaking and the accumulated speech duration is at least 3 seconds. The
Bool returned is whether handleAutoSubmit was invoked. -/
def silenceTick (st : AutoSubmitState) (detectorInit : Bool) (silence : ℚ) :
    AutoSubmitState × Bool :=
  if detectorInit then
    if max 0 (10 - silence) = 0 ∧ st.autoSubmitTriggered = false ∧
        st.hasStartedSpeaking = true ∧ 3 ≤ st.minimumSpeechDuration then
      ({ st with autoSubmitTriggered := true }, true)
    else (st, false)
  else (st, false)

/-- The onSpeechDetected callback (part_004 lines 314-321): marks that the
user has started speaking and accumulates 0.1 s of speech. -/
def speechEvent (st : AutoSubmitState) : AutoSubmitState :=
  { st with hasStartedSpeaking := true
            minimumSpeechDuration := st.minimumSpeechDuration + 1/10 }

/-- One event of the auto-submit machinery. -/
def asStep (st : AutoSubmitState) : ASEvent → AutoSubmitState × Bool
  | .check init silence => silenceTick st init silence
  | .speech => (speechEvent st, false)

/-- Number of times handleAutoSubmit fires along an event sequence. -/
def countFires (st : AutoSubmitState) : List ASEvent → Nat
  | [] => 0
  | e :: es => (if (asStep st e).2 then 1 else 0) + countFires (asStep st e).1 es

/-! ## Section 5: hybrid question selection (hybridQuestionService.ts) -/

/-- Swap of the entries at positions i and j, modelling the destructuring
swap in shuffleQuestions; both indices are in bounds at every use. -/
def swapIdx {α : Type} (l : List α) (i j : Nat) : List α :=
  match l[i]?, l[j]? with
  | some x, some y => (l.set i y).set j x
  | _, _ => l

/-- The Fisher-Yates loop of shuffleQuestions (lines 348-351): at loop index
`i+1` the random index is `Math.floor(Math.random() * (i+2))`, modelled as
`rand (i+1) % (i+2)`. -/
def fisherYatesAux {α : Type} (rand : Nat → Nat) : Nat → List α → List α
  | 0, l => l
  | i + 1, l => fisherYatesAux rand i (swapIdx l (i + 1) (rand (i + 1) % (i + 2)))

/-- shuffleQuestions (hybridQuestionService.ts lines 346-353). -/
def shuffleQuestions {α : Type} (rand : Nat → Nat) (qs : List α) : List α :=
  fisherYatesAux rand (qs.length - 1) qs

/-- databaseQuestionsCount = Math.ceil(totalQuestions * 0.6) (line 24). The
binary64 product n * 0.6 rounds to the double nearest 3n/5 for every n in
range, so the exact rational ceiling is the value computed. -/
def databaseQuestionsCount (totalQuestions : Nat) : Nat :=
  (⌈(totalQuestions : ℚ) * (6/10)⌉).toNat

/-- aiQuestionsCount = totalQuestions - databaseQuestionsCount (line 25). -/
def aiQuestionsCount (totalQuestions : Nat) : Nat :=
  totalQuestions - databaseQuestionsCount totalQuestions

/-- selectDatabaseQuestions (lines 43-87): the supabase query, relevance
scoring and sort are abstracted into the input `sortedCandidates` (they
depend on the database contents and Math.random); the function then takes
`slice(0, count)` of it. -/
def selectDatabaseQuestions {α : Type} (sortedCandidates : List α) (count : Nat) :
    List α :=
  sortedCandidates.take count

/-- generateAIQuestions (lines 133-151): one generation attempt per index
below count, keeping the successes in order; `outcome k` is the question
produced by attempt k, if it succeeds. -/
def generateAIQuestions {α : Type} (outcome : Nat → Option α) (count : Nat) :
    List α :=
  (List.range count).filterMap outcome

/-- selectQuestionsForInterview (lines 18-41). -/
def selectQuestionsForInterview {α : Type} (rand : Nat → Nat)
    (sortedCandidates : List α) (outcome : Nat → Option α)
    (totalQuestions : Nat) : List α :=
  let dbCount := databaseQuestionsCount totalQuestions
  let aiCount := totalQuestions - dbCount
  let databaseQuestions := selectDatabaseQuestions sortedCandidates dbCount
  let aiQuestions := generateAIQuestions outcome aiCount
  shuffleQuestions rand (databaseQuestions ++ aiQuestions)

/-! ## Helper lemmas -/

lemma safeFetchGo_succ_retry {seq : Nat → FetchEvent} {m rem a d : Nat} {acc : List Nat}
    (h : iterStep m rem (seq a) = .retry) :
    safeFetchGo seq m (rem + 1) a d acc =
      safeFetchGo seq m rem (a + 1) (d * 2) (d :: acc) := by
  rw [safeFetchGo, h]

lemma safeFetchGo_succ_fail {seq : Nat → FetchEvent} {m rem a d : Nat} {acc : List Nat}
    {msg : String} (h : iterStep m rem (seq a) = .fail msg) :
    safeFetchGo seq m (rem + 1) a d acc = ⟨.err msg, a + 1, acc.reverse⟩ := by
  rw [safeFetchGo, h]

lemma safeFetchGo_succ_ret {seq : Nat → FetchEvent} {m rem a d : Nat} {acc : List Nat}
    {r : Response} (h : iterStep m rem (seq a) = .ret r) :
    safeFetchGo seq m (rem + 1) a d acc = ⟨.ok r, a + 1, acc.reverse⟩ := by
  rw [safeFetchGo, h]

lemma retryable_ok_false {r : Response} (h : r.status = 429 ∨ 500 ≤ r.status) :
    r.ok = false := by
  simp only [Response.ok, decide_eq_false_iff_not, not_and, not_lt]
  omega

lemma iterStep_ret_ok {m rem : Nat} {ev : FetchEvent} {r : Response}
    (h : iterStep m rem ev = .ret r) : r.ok = true := by
  cases ev with
  | netErr msg =>
    simp only [iterStep, catchFilter] at h
    split_ifs at h
  | resp r2 =>
    simp only [iterStep, catchFilter] at h
    split_ifs at h
    simp_all

lemma iterStep_retryable {m rem : Nat} {r : Response}
    (h : r.status = 429 ∨ 500 ≤ r.status) (hrem : rem ≠ 0) :
    iterStep m rem (.resp r) = .retry := by
  have hok := retryable_ok_false h
  have h400 : ¬ r.status = 400 := by omega
  have h401 : ¬ r.status = 401 := by omega
  have h402 : ¬ r.status = 402 := by omega
  simp only [iterStep, hok, Bool.false_eq_true, if_false, if_neg h400, if_neg h401,
    if_neg h402, if_pos h, if_neg hrem]

lemma iterStep_retryable_last {m : Nat} {r : Response}
    (h : r.status = 429 ∨ 500 ≤ r.status)
    (h1 : strIncludes ("Failed after " ++ toString m ++ " retries: " ++ errMsgOf r)
      ("Failed to fetch") = false)
    (h2 : strIncludes ("Failed after " ++ toString m ++ " retries: " ++ errMsgOf r)
      ("NetworkError") = false) :
    iterStep m 0 (.resp r) =
      .fail ("Failed after " ++ toString m ++ " retries: " ++ errMsgOf r) := by
  have hok := retryable_ok_false h
  have h400 : ¬ r.status = 400 := by omega
  have h401 : ¬ r.status = 401 := by omega
  have h402 : ¬ r.status = 402 := by omega
  simp only [iterStep, hok, Bool.false_eq_true, if_false, if_neg h400, if_neg h401,
    if_neg h402, if_pos h, catchFilter, h1, h2, Bool.or_self]
  simp

lemma iterStep_nonretryable {m rem : Nat} {r : Response}
    (hok : r.ok = false) (hnr : ¬ (r.status = 429 ∨ 500 ≤ r.status))
    (h1 : strIncludes (thrownMsgOf r) ("Failed to fetch") = false)
    (h2 : strIncludes (thrownMsgOf r) ("NetworkError") = false) :
    iterStep m rem (.resp r) = .fail (thrownMsgOf r) := by
  simp only [iterStep, hok, Bool.false_eq_true, if_false, catchFilter]
  by_cases e400 : r.status = 400
  · simp only [if_pos e400]
    have : thrownMsgOf r = "Bad Request: " ++ errMsgOf r := by
      simp [thrownMsgOf, e400]
    rw [← this, h1, h2]
    simp
  · by_cases e401 : r.status = 401
    · simp only [if_neg e400, if_pos e401]
      have : thrownMsgOf r = "Unauthorized: " ++ errMsgOf r := by
        simp [thrownMsgOf, e400, e401]
      rw [← this, h1, h2]
      simp
    · by_cases e402 : r.status = 402
      · simp only [if_neg e400, if_neg e401, if_pos e402]
        have : thrownMsgOf r = "Insufficient Credits: " ++ errMsgOf r := by
          simp [thrownMsgOf, e400, e401, e402]
        rw [← this, h1, h2]
        simp
      · simp only [if_neg e400, if_neg e401, if_neg e402, if_neg hnr]
        have : thrownMsgOf r = errMsgOf r := by
          simp [thrownMsgOf, e400, e401, e402]
        rw [← this, h1, h2]
        simp

lemma safeFetchGo_attempts_le (seq : Nat → FetchEvent) (m : Nat) :
    ∀ (rem a d : Nat) (acc : List Nat),
      (safeFetchGo seq m rem a d acc).attempts ≤ a + rem := by
  intro rem
  induction rem with
  | zero =>
    intro a d acc
    show a ≤ a + 0
    omega
  | succ k ih =>
    intro a d acc
    rcases h : iterStep m k (seq a) with r | _ | msg
    · rw [safeFetchGo_succ_ret h]
      show a + 1 ≤ a + (k + 1)
      omega
    · rw [safeFetchGo_succ_retry h]
      calc (safeFetchGo seq m k (a + 1) (d * 2) (d :: acc)).attempts ≤ (a + 1) + k :=
            ih (a + 1) (d * 2) (d :: acc)
        _ = a + (k + 1) := by omega
    · rw [safeFetchGo_succ_fail h]
      show a + 1 ≤ a + (k + 1)
      omega

lemma safeFetchGo_ok_is_ok (seq : Nat → FetchEvent) (m : Nat) :
    ∀ (rem a d : Nat) (acc : List Nat) (r : Response),
      (safeFetchGo seq m rem a d acc).outcome = .ok r → r.ok = true := by
  intro rem
  induction rem with
  | zero => intro a d acc r h; simp [safeFetchGo] at h
  | succ k ih =>
    intro a d acc r h
    rcases he : iterStep m k (seq a) with r2 | _ | msg
    · rw [safeFetchGo_succ_ret he] at h
      simp at h
      subst h
      exact iterStep_ret_ok he
    · rw [safeFetchGo_succ_retry he] at h
      exact ih (a + 1) (d * 2) (d :: acc) r h
    · rw [safeFetchGo_succ_fail he] at h
      simp at h

lemma charsHasPref_refl : ∀ l : List Char, charsHasPref l l = true := by
  intro l
  induction l with
  | nil => rfl
  | cons c cs ih => simp [charsHasPref, ih]

lemma charsContains_append_self (s : List Char) :
    ∀ p : List Char, charsContains s (p ++ s) = true := by
  intro p
  induction p with
  | nil =>
    cases s with
    | nil => rfl
    | cons c cs => simp [charsContains, charsHasPref_refl]
  | cons c p ih =>
    simp [charsContains, ih]

lemma strIncludes_append_self (p s : String) : strIncludes (p ++ s) s = true := by
  simp [strIncludes, String.toList, charsContains_append_self]

lemma databaseQuestionsCount_eq (n : ℕ) :
    databaseQuestionsCount n = (3 * n + 4) / 5 := by
  unfold databaseQuestionsCount
  set q := (3 * n + 4) / 5 with hq
  have g1 : 3 * n ≤ 5 * q := by omega
  have g2 : 5 * q < 3 * n + 5 := by omega
  have hk : (⌈(n : ℚ) * (6/10)⌉ : ℤ) = ((q : ℕ) : ℤ) := by
    rw [Int.ceil_eq_iff]
    constructor
    · have hg : (5 : ℚ) * q < 3 * n + 5 := by exact_mod_cast g2
      push_cast
      linarith
    · have hg : (3 : ℚ) * n ≤ 5 * q := by exact_mod_cast g1
      push_cast
      linarith
  rw [hk]
  exact Int.toNat_natCast _

lemma databaseQuestionsCount_le (n : ℕ) : databaseQuestionsCount n ≤ n := by
  rw [databaseQuestionsCount_eq]
  omega

lemma safeFetch_ok_first {seq : Nat → FetchEvent} {r : Response}
    (h0 : seq 0 = .resp r) (hok : r.ok = true) :
    safeFetchD seq = ⟨.ok r, 1, []⟩ := by
  have s0 : iterStep 3 2 (seq 0) = .ret r := by
    rw [h0]
    simp [iterStep, hok]
  calc safeFetchD seq = safeFetchGo seq 3 (2 + 1) 0 1000 [] := rfl
    _ = ⟨.ok r, 1, []⟩ := safeFetchGo_succ_ret s0

lemma safeFetch_throws_first {seq : Nat → FetchEvent} {r : Response}
    (h0 : seq 0 = .resp r) (hok : r.ok = false)
    (hnr : ¬(r.status = 429 ∨ 500 ≤ r.status))
    (hm1 : strIncludes (thrownMsgOf r) ("Failed to fetch") = false)
    (hm2 : strIncludes (thrownMsgOf r) ("NetworkError") = false) :
    safeFetchD seq = ⟨.err (thrownMsgOf r), 1, []⟩ := by
  have s0 : iterStep 3 2 (seq 0) = .fail (thrownMsgOf r) := by
    rw [h0]
    exact iterStep_nonretryable hok hnr hm1 hm2
  calc safeFetchD seq = safeFetchGo seq 3 (2 + 1) 0 1000 [] := rfl
    _ = ⟨.err (thrownMsgOf r), 1, []⟩ := safeFetchGo_succ_fail s0

lemma createOrder_ok_eq {req : CreateOrderRequest} {uses ip : Nat}
    {t : PaymentTransaction} (h : createOrder req uses ip = .ok t) :
    t = createOrderInsert req := by
  by_cases hplan : req.planId = ""
  · rw [createOrder, if_pos hplan] at h
    simp at h
  · rw [createOrder, if_neg hplan] at h
    cases hcc : req.couponCode with
    | none =>
      rw [hcc] at h
      simp at h
      exact h.symm
    | some c =>
      rw [hcc] at h
      simp only [] at h
      split_ifs at h
      simp_all

lemma cons_set_perm {α : Type} :
    ∀ (t : List α) (k : Nat) (y a : α), t[k]? = some y →
      List.Perm (y :: t.set k a) (a :: t) := by
  intro t
  induction t with
  | nil => intro k y a h; simp at h
  | cons b t2 ih =>
    intro k y a h
    cases k with
    | zero =>
      simp only [List.getElem?_cons_zero, Option.some.injEq] at h
      subst h
      simp only [List.set_cons_zero]
      exact List.Perm.swap a b t2
    | succ m =>
      simp only [List.getElem?_cons_succ] at h
      simp only [List.set_cons_succ]
      exact (List.Perm.swap b y (t2.set m a)).trans
        ((List.Perm.cons b (ih m y a h)).trans (List.Perm.swap a b t2))

lemma swapIdx_perm {α : Type} :
    ∀ (l : List α) (i j : Nat), List.Perm (swapIdx l i j) l := by
  intro l
  induction l with
  | nil => intro i j; simp [swapIdx]
  | cons a t ih =>
    intro i j
    rcases h1 : (a :: t)[i]? with _ | x
    · simp [swapIdx, h1]
    · rcases h2 : (a :: t)[j]? with _ | y
      · simp [swapIdx, h1, h2]
      · simp only [swapIdx, h1, h2]
        cases i with
        | zero =>
          simp only [List.getElem?_cons_zero, Option.some.injEq] at h1
          subst h1
          cases j with
          | zero =>
            simp only [List.getElem?_cons_zero, Option.some.injEq] at h2
            subst h2
            simp only [List.set_cons_zero]
            exact List.Perm.refl _
          | succ m =>
            simp only [List.getElem?_cons_succ] at h2
            simp only [List.set_cons_zero, List.set_cons_succ]
            exact cons_set_perm t m y a h2
        | succ m =>
          simp only [List.getElem?_cons_succ] at h1
          cases j with
          | zero =>
            simp only [List.getElem?_cons_zero, Option.some.injEq] at h2
            subst h2
            simp only [List.set_cons_succ, List.set_cons_zero]
            exact cons_set_perm t m x a h1
          | succ k =>
            simp only [List.getElem?_cons_succ] at h2
            simp only [List.set_cons_succ]
            refine List.Perm.cons a ?_
            simpa [swapIdx, h1, h2] using ih m k

lemma fisherYatesAux_perm {α : Type} (rand : Nat → Nat) :
    ∀ (n : Nat) (l : List α), List.Perm (fisherYatesAux rand n l) l := by
  intro n
  induction n with
  | zero => intro l; exact List.Perm.refl l
  | succ k ih =>
    intro l
    exact (ih _).trans (swapIdx_perm l (k + 1) (rand (k + 1) % (k + 2)))

lemma shuffleQuestions_perm {α : Type} (rand : Nat → Nat) (qs : List α) :
    List.Perm (shuffleQuestions rand qs) qs :=
  fisherYatesAux_perm rand (qs.length - 1) qs

lemma asStep_triggered_stays {st : AutoSubmitState} {e : ASEvent}
    (h : st.autoSubmitTriggered = true) :
    (asStep st e).1.autoSubmitTriggered = true ∧ (asStep st e).2 = false := by
  cases e with
  | speech => simpa [asStep, speechEvent] using h
  | check init silence =>
    simp only [asStep, silenceTick]
    split_ifs with h1 h2
    · simp_all
    · simp_all
    · simp_all

lemma asStep_fired_triggers {st : AutoSubmitState} {e : ASEvent}
    (h : (asStep st e).2 = true) :
    (asStep st e).1.autoSubmitTriggered = true := by
  cases e with
  | speech => simp [asStep, speechEvent] at h
  | check init silence =>
    simp only [asStep, silenceTick] at h ⊢
    split_ifs at h ⊢
    simp_all

lemma countFires_of_triggered :
    ∀ (es : List ASEvent) (st : AutoSubmitState),
      st.autoSubmitTriggered = true → countFires st es = 0 := by
  intro es
  induction es with
  | nil => intro st _; rfl
  | cons e es ih =>
    intro st h
    obtain ⟨h1, h2⟩ := asStep_triggered_stays (e := e) h
    simp [countFires, h2, ih _ h1]

lemma countFires_le_one :
    ∀ (es : List ASEvent) (st : AutoSubmitState), countFires st es ≤ 1 := by
  intro es
  induction es with
  | nil => intro st; simp [countFires]
  | cons e es ih =>
    intro st
    rcases hf : (asStep st e).2 with _ | _
    · simp [countFires, hf]
      exact ih _
    · simp [countFires, hf, countFires_of_triggered es _ (asStep_fired_triggers hf)]

/-! ## Claim theorems -/

/-- C1, counterexample to the claim as stated: a response with the
non-retryable status 400 whose body carries the error message
"Failed to fetch" nevertheless triggers a retry, because the thrown
"Bad Request" error is caught by the catch block and misclassified as a
network failure.  safeFetch performs 2 fetch attempts and sleeps 1000 ms,
although the claim says a non-retryable status never triggers a retry. -/
theorem C1_counterexample :
    safeFetchD (fun k => if k = 0 then .resp ⟨400, some (("Failed to fetch"), none)⟩
      else .resp ⟨200, none⟩) =
      ⟨.ok ⟨200, none⟩, 2, [1000]⟩ := by
  decide

/-- C1 (amended): safeFetch performs at most 3 fetch attempts; on a run of
retryable responses (status 429 or at least 500) it sleeps the doubling
delays 1000 ms then 2000 ms and throws the retries-exhausted error carrying
the message of the last response once the bound is reached; an ok response
is returned unchanged after a single attempt; and a non-ok non-retryable
response is thrown immediately with no retry — provided, in the failing
cases, that the thrown message does not contain the substrings
"Failed to fetch" or "NetworkError", which the catch block would
misclassify as a network failure and retry. -/
theorem C1_safeFetch_bounded_retry :
    (∀ seq : Nat → FetchEvent, (safeFetchD seq).attempts ≤ 3) ∧
    (∀ (seq : Nat → FetchEvent) (r0 r1 r2 : Response),
      seq 0 = .resp r0 → seq 1 = .resp r1 → seq 2 = .resp r2 →
      (r0.status = 429 ∨ 500 ≤ r0.status) →
      (r1.status = 429 ∨ 500 ≤ r1.status) →
      (r2.status = 429 ∨ 500 ≤ r2.status) →
      strIncludes ("Failed after 3 retries: " ++ errMsgOf r2) ("Failed to fetch") = false →
      strIncludes ("Failed after 3 retries: " ++ errMsgOf r2) ("NetworkError") = false →
      safeFetchD seq =
        ⟨.err ("Failed after 3 retries: " ++ errMsgOf r2), 3, [1000, 2000]⟩) ∧
    (∀ (seq : Nat → FetchEvent) (r : Response),
      seq 0 = .resp r → r.ok = true → safeFetchD seq = ⟨.ok r, 1, []⟩) ∧
    (∀ (seq : Nat → FetchEvent) (r : Response),
      seq 0 = .resp r → r.ok = false → ¬(r.status = 429 ∨ 500 ≤ r.status) →
      strIncludes (thrownMsgOf r) ("Failed to fetch") = false →
      strIncludes (thrownMsgOf r) ("NetworkError") = false →
      safeFetchD seq = ⟨.err (thrownMsgOf r), 1, []⟩) := by
  refine ⟨?_, ?_, ?_, ?_⟩
  · intro seq
    exact safeFetchGo_attempts_le seq 3 3 0 1000 []
  · intro seq r0 r1 r2 h0 h1 h2 hr0 hr1 hr2 hm1 hm2
    have hc : ("Failed after " ++ toString (3 : ℕ) ++ " retries: ") =
        "Failed after 3 retries: " := by decide
    have hmsg : ("Failed after " ++ toString (3 : ℕ) ++ " retries: " ++ errMsgOf r2) =
        ("Failed after 3 retries: " ++ errMsgOf r2) := by rw [hc]
    have s0 : iterStep 3 2 (seq 0) = .retry := by
      rw [h0]
      exact iterStep_retryable hr0 (by omega)
    have s1 : iterStep 3 1 (seq 1) = .retry := by
      rw [h1]
      exact iterStep_retryable hr1 (by omega)
    have s2 : iterStep 3 0 (seq 2) =
        .fail ("Failed after " ++ toString (3 : ℕ) ++ " retries: " ++ errMsgOf r2) := by
      rw [h2]
      exact iterStep_retryable_last hr2 (by rw [hmsg]; exact hm1) (by rw [hmsg]; exact hm2)
    calc safeFetchD seq = safeFetchGo seq 3 (2 + 1) 0 1000 [] := rfl
      _ = safeFetchGo seq 3 (1 + 1) 1 2000 [1000] := safeFetchGo_succ_retry s0
      _ = safeFetchGo seq 3 (0 + 1) 2 4000 [2000, 1000] := safeFetchGo_succ_retry s1
      _ = ⟨.err ("Failed after " ++ toString (3 : ℕ) ++ " retries: " ++ errMsgOf r2), 3,
            [2000, 1000].reverse⟩ := safeFetchGo_succ_fail s2
      _ = ⟨.err ("Failed after 3 retries: " ++ errMsgOf r2), 3, [1000, 2000]⟩ := by
            rw [hmsg]
            rfl
  · intro seq r h0 hok
    exact safeFetch_ok_first h0 hok
  · intro seq r h0 hok hnr hm1 hm2
    exact safeFetch_throws_first h0 hok hnr hm1 hm2

/-- C1, witness: three 503 responses exhaust the retry bound after exactly 3
attempts and the doubling delays 1000 ms and 2000 ms. -/
theorem C1_witness :
    safeFetchD (fun _ => .resp ⟨503, none⟩) =
      ⟨.err ("Failed after 3 retries: " ++ errMsgOf ⟨503, none⟩), 3, [1000, 2000]⟩ :=
  C1_safeFetch_bounded_retry.2.1 (fun _ => .resp ⟨503, none⟩)
    ⟨503, none⟩ ⟨503, none⟩ ⟨503, none⟩ rfl rfl rfl
    (by decide) (by decide) (by decide) (by decide) (by decide)

/-- C6, counterexample to the claim as stated: a 404 response whose JSON body
carries error.message "nope" and error.code 7 makes safeFetch throw the
message "nope (Code: 7)", which does not contain the status 404, so a
non-retryable status other than 400/401/402 does not always yield a message
containing the status. -/
theorem C6_counterexample :
    safeFetchD (fun _ => .resp ⟨404, some (("nope"), some 7)⟩) =
      ⟨.err ("nope (Code: 7)"), 1, []⟩ ∧
    strIncludes ("nope (Code: 7)") ("404") = false := by
  constructor
  · decide
  · decide

/-- C6 (amended): for a first response that is non-ok and non-retryable, and
whose thrown message is not misclassified as a network failure, safeFetch
throws exactly the status-mapped message: prefix "Bad Request: " for 400,
"Unauthorized: " for 401, "Insufficient Credits: " for 402, and the message
extracted from the body otherwise — which is the generic
"AgentRouter error {status}", containing the status, whenever the body
supplies no error message.  Moreover safeFetch never returns a response
whose ok flag is false, for any retry bound. -/
theorem C6_safeFetch_error_messages :
    (∀ (seq : Nat → FetchEvent) (r : Response),
      seq 0 = .resp r → r.ok = false → ¬(r.status = 429 ∨ 500 ≤ r.status) →
      strIncludes (thrownMsgOf r) ("Failed to fetch") = false →
      strIncludes (thrownMsgOf r) ("NetworkError") = false →
      (safeFetchD seq).outcome = .err (thrownMsgOf r) ∧
      (r.status = 400 → thrownMsgOf r = "Bad Request: " ++ errMsgOf r) ∧
      (r.status = 401 → thrownMsgOf r = "Unauthorized: " ++ errMsgOf r) ∧
      (r.status = 402 → thrownMsgOf r = "Insufficient Credits: " ++ errMsgOf r) ∧
      (r.errInfo = none → ¬(r.status = 400 ∨ r.status = 401 ∨ r.status = 402) →
        thrownMsgOf r = "AgentRouter error " ++ toString r.status ∧
        strIncludes (thrownMsgOf r) (toString r.status) = true)) ∧
    (∀ (seq : Nat → FetchEvent) (m : Nat) (r : Response),
      (safeFetch seq m).outcome = .ok r → r.ok = true) := by
  constructor
  · intro seq r h0 hok hnr hm1 hm2
    refine ⟨?_, ?_, ?_, ?_, ?_⟩
    · rw [safeFetch_throws_first h0 hok hnr hm1 hm2]
    · intro h400
      simp [thrownMsgOf, h400]
    · intro h401
      have h400 : ¬ r.status = 400 := by omega
      simp [thrownMsgOf, h400, h401]
    · intro h402
      have h400 : ¬ r.status = 400 := by omega
      have h401 : ¬ r.status = 401 := by omega
      simp [thrownMsgOf, h400, h401, h402]
    · intro hnone hother
      have h400 : ¬ r.status = 400 := by tauto
      have h401 : ¬ r.status = 401 := by tauto
      have h402 : ¬ r.status = 402 := by tauto
      have he : thrownMsgOf r = "AgentRouter error " ++ toString r.status := by
        simp [thrownMsgOf, h400, h401, h402, errMsgOf, hnone]
      refine ⟨he, ?_⟩
      rw [he]
      exact strIncludes_append_self _ _
  · intro seq m r h
    exact safeFetchGo_ok_is_ok seq m m 0 INITIAL_RETRY_DELAY_MS [] r h

/-- C6, witness: a 401 response with an unparsed body makes safeFetch throw
the Unauthorized-prefixed generic message after one attempt. -/
theorem C6_witness :
    (safeFetchD (fun _ => .resp ⟨401, none⟩)).outcome = .err (thrownMsgOf ⟨401, none⟩) :=
  (C6_safeFetch_error_messages.1 (fun _ => .resp ⟨401, none⟩) ⟨401, none⟩
    rfl (by decide) (by decide) (by decide) (by decide)).1

/-- C2, counterexample to the claim as stated: the create-order function does
perform a uniqueness check of its own.  Two identical requests carrying the
DIWALI coupon receive different outcomes depending solely on the count of
prior uses found in payment_transactions: with one prior use the request is
rejected before any insert; with zero prior uses the order is created. -/
theorem C2_counterexample :
    createOrder ⟨"plan_x", 100, some ("DIWALI"), none, none, []⟩ 1 0 =
      .error ("You have already redeemed your Diwali 90% OFF coupon. Each user can use this offer only once.") ∧
    createOrder ⟨"plan_x", 100, some ("DIWALI"), none, none, []⟩ 0 0 =
      .ok ⟨some ("plan_x"), "pending", 1000, some ("diwali"), 900, 100, "plan", 0⟩ := by
  constructor
  · rfl
  · have h : lowerStr ("DIWALI") = "diwali" := by decide
    simp [createOrder, createOrderInsert, discountAmountOf, purchaseTypeOf, h]
    norm_num

/-- C2 (amended): the create-order function itself enforces one-time coupon
usage in application code: whenever the request carries a coupon code and
the payment_transactions query reports a prior use by this user, the
function throws (the Diwali-specific message for the DIWALI coupon, the
generic message otherwise) and never inserts a transaction row. -/
theorem C2_app_enforces_coupon_uniqueness :
    (∀ (req : CreateOrderRequest) (c : String) (uses ip : Nat) (t : PaymentTransaction),
      req.couponCode = some c → 0 < uses → createOrder req uses ip ≠ .ok t) ∧
    (∀ (req : CreateOrderRequest) (c : String) (uses ip : Nat),
      req.couponCode = some c → 0 < uses → req.planId ≠ "" →
      createOrder req uses ip =
        .error (if lowerStr c = "diwali"
          then "You have already redeemed your Diwali 90% OFF coupon. Each user can use this offer only once."
          else "Coupon \"" ++ c ++ "\" has already been used by this account.")) := by
  constructor
  · intro req c uses ip t hc hu heq
    by_cases hplan : req.planId = ""
    · rw [createOrder, if_pos hplan] at heq
      simp at heq
    · rw [createOrder, if_neg hplan, hc] at heq
      simp only [] at heq
      rw [if_pos hu] at heq
      split_ifs at heq
  · intro req c uses ip hc hu hplan
    rw [createOrder, if_neg hplan, hc]
    simp only []
    rw [if_pos hu]
    split_ifs <;> rfl

/-- C2, witness: a request with an already-used generic coupon is rejected
with the generic already-used message. -/
theorem C2_witness :
    createOrder ⟨"plan_x", 100, some ("SAVE10"), none, none, []⟩ 2 0 =
      .error ("Coupon \"SAVE10\" has already been used by this account.") := by
  rw [C2_app_enforces_coupon_uniqueness.2 ⟨"plan_x", 100, some ("SAVE10"), none, none, []⟩
    ("SAVE10") 2 0 rfl (by omega) (by decide)]
  rw [if_neg (by decide)]
  rfl

/-- C9: for a create-order request whose coupon lower-cases to diwali and
whose final amount is the natural number a (in paise), the inserted
transaction records discount_amount = floor((amount / 0.1) * 0.9) = 9 * a
and amount = final + discount + walletDeduction = 10 * a + walletDeduction,
reconstructing the pre-discount price; with no coupon the recorded
discount_amount is 0. -/
theorem C9_diwali_discount_amount :
    (∀ (req : CreateOrderRequest) (c : String) (a : ℕ) (uses ip : Nat)
        (t : PaymentTransaction),
      req.couponCode = some c → lowerStr c = "diwali" → req.amount = (a : ℚ) →
      createOrder req uses ip = .ok t →
      t.discount_amount = ((⌊(req.amount / (1/10)) * (9/10)⌋ : ℤ) : ℚ) ∧
      t.discount_amount = ((9 * a : ℕ) : ℚ) ∧
      t.amount = req.amount + t.discount_amount + req.walletDeduction.getD 0 ∧
      t.amount = ((10 * a : ℕ) : ℚ) + req.walletDeduction.getD 0) ∧
    (∀ (req : CreateOrderRequest) (uses ip : Nat) (t : PaymentTransaction),
      req.couponCode = none → createOrder req uses ip = .ok t →
      t.discount_amount = 0) := by
  constructor
  · intro req c a uses ip t hc hlow ha heq
    have ht : t = createOrderInsert req := createOrder_ok_eq heq
    have hd : t.discount_amount = ((⌊(req.amount / (1/10)) * (9/10)⌋ : ℤ) : ℚ) := by
      rw [ht]
      simp [createOrderInsert, discountAmountOf, hc, hlow]
    have hfloor : ((⌊(req.amount / (1/10)) * (9/10)⌋ : ℤ) : ℚ) = ((9 * a : ℕ) : ℚ) := by
      have e1 : (req.amount / (1/10)) * (9/10) = ((9 * a : ℕ) : ℚ) := by
        rw [ha]
        push_cast
        ring
      rw [e1, Int.floor_natCast]
      norm_cast
    refine ⟨hd, by rw [hd, hfloor], ?_, ?_⟩
    · rw [ht]
      simp [createOrderInsert]
    · rw [ht]
      simp only [createOrderInsert]
      have hd2 : discountAmountOf req = ((9 * a : ℕ) : ℚ) := by
        rw [← hfloor]
        simp [discountAmountOf, hc, hlow]
      rw [hd2, ha]
      push_cast
      ring
  · intro req uses ip t hc heq
    have ht : t = createOrderInsert req := createOrder_ok_eq heq
    rw [ht]
    simp [createOrderInsert, discountAmountOf, hc]

/-- C9, witness: final amount 100 paise with the DIWALI coupon and a 50-paise
wallet deduction records discount 900 and stored amount 1050. -/
theorem C9_witness :
    (⟨some ("plan_x"), "pending", 1050, some ("diwali"), 900, 100, "plan", 50⟩ :
        PaymentTransaction).discount_amount = ((9 * 100 : ℕ) : ℚ) ∧
    (⟨some ("plan_x"), "pending", 1050, some ("diwali"), 900, 100, "plan", 50⟩ :
        PaymentTransaction).amount = ((10 * 100 : ℕ) : ℚ) +
      (Option.getD (some (50 : ℚ)) 0) := by
  have hord : createOrder ⟨"plan_x", 100, some ("DIWALI"), some 50, none, []⟩ 0 0 =
      .ok ⟨some ("plan_x"), "pending", 1050, some ("diwali"), 900, 100, "plan", 50⟩ := by
    have h : lowerStr ("DIWALI") = "diwali" := by decide
    simp [createOrder, createOrderInsert, discountAmountOf, purchaseTypeOf, h]
    norm_num
  have happ := C9_diwali_discount_amount.1
    ⟨"plan_x", 100, some ("DIWALI"), some 50, none, []⟩ ("DIWALI") 100 0 0
    ⟨some ("plan_x"), "pending", 1050, some ("diwali"), 900, 100, "plan", 50⟩
    rfl (by decide) (by norm_num) hord
  exact ⟨happ.2.1, happ.2.2.2⟩

/-- C3: for a POST request whose body parses as JSON, the payload forwarded
upstream consists of exactly the fields model, messages, temperature and
max_tokens with the defaults gpt-4o, 0.7 and 2000 applied to absent fields;
and when messages is missing or not an array the handler returns status 400
with no upstream call. -/
theorem C3_proxy_request_shape :
    ∀ (ev : HEvent) (b : ReqBody) (fb : FetchBehavior),
      ev.httpMethod = "POST" → ev.body = .parsed b →
      (∀ ms, b.messages = .arr ms →
        (aiProxyHandler ev true fb).upstreamPayload =
          some ⟨b.model.getD ("gpt-4o"), ms, b.temperature.getD (7/10),
            b.max_tokens.getD 2000⟩) ∧
      (b.messages = .missing ∨ b.messages = .notArray →
        aiProxyHandler ev true fb =
          ⟨400, some ("Invalid request: messages array required"), false, none⟩) := by
  intro ev b fb hm hb
  constructor
  · intro ms hmsg
    rw [aiProxyHandler, hm, hb]
    rw [if_neg (by decide), if_neg (by decide)]
    simp only [Bool.not_true, Bool.false_eq_true, if_false, hmsg]
    cases fb with
    | completes status data => by_cases hst : 200 ≤ status ∧ status < 300 <;> simp [hst]
    | timesOut => rfl
    | fails name msg => by_cases hn : name = "AbortError" <;> simp [hn]
  · intro hmiss
    rw [aiProxyHandler, hm, hb]
    rw [if_neg (by decide), if_neg (by decide)]
    rcases hmiss with hmiss | hmiss <;> simp [hmiss]

/-- C3, witness: a POST request with one message and no optional fields is
forwarded with the three defaults filled in. -/
theorem C3_witness :
    (aiProxyHandler ⟨"POST", .parsed ⟨none, .arr [⟨"user", "hi"⟩], none, none⟩⟩ true
        (.completes 200 ⟨none, none⟩)).upstreamPayload =
      some ⟨"gpt-4o", [⟨"user", "hi"⟩], 7/10, 2000⟩ := by
  have happ := (C3_proxy_request_shape ⟨"POST", .parsed ⟨none, .arr [⟨"user", "hi"⟩], none, none⟩⟩
    ⟨none, .arr [⟨"user", "hi"⟩], none, none⟩ (.completes 200 ⟨none, none⟩) rfl rfl).1
    [⟨"user", "hi"⟩] rfl
  exact happ

/-- C5: when the upstream fetch does not complete within the 30-second
timeout, the abort controller cancels the in-flight request and the handler
returns status 504 with the timeout error message. -/
theorem C5_timeout_aborts :
    ∀ (ev : HEvent) (b : ReqBody) (ms : List Message),
      ev.httpMethod = "POST" → ev.body = .parsed b → b.messages = .arr ms →
      (aiProxyHandler ev true .timesOut).statusCode = 504 ∧
      (aiProxyHandler ev true .timesOut).errorMsg =
        some ("Request timeout after 30 seconds") ∧
      (aiProxyHandler ev true .timesOut).aborted = true := by
  intro ev b ms hm hb hmsg
  rw [aiProxyHandler, hm, hb]
  rw [if_neg (by decide), if_neg (by decide)]
  simp [hmsg]

/-- C5, witness: the timeout path at a concrete POST request. -/
theorem C5_witness :
    (aiProxyHandler ⟨"POST", .parsed ⟨none, .arr [⟨"user", "hi"⟩], none, none⟩⟩ true
        .timesOut).statusCode = 504 ∧
    (aiProxyHandler ⟨"POST", .parsed ⟨none, .arr [⟨"user", "hi"⟩], none, none⟩⟩ true
        .timesOut).errorMsg = some ("Request timeout after 30 seconds") ∧
    (aiProxyHandler ⟨"POST", .parsed ⟨none, .arr [⟨"user", "hi"⟩], none, none⟩⟩ true
        .timesOut).aborted = true :=
  C5_timeout_aborts ⟨"POST", .parsed ⟨none, .arr [⟨"user", "hi"⟩], none, none⟩⟩
    ⟨none, .arr [⟨"user", "hi"⟩], none, none⟩ [⟨"user", "hi"⟩] rfl rfl rfl

/-- C4, counterexample to the claim as stated: the stage machine is reachable
to feedback and then transitions back to question when more questions
remain, while the immediate successor of feedback in the linear order is
completed; so not every reachable transition moves to the immediate
successor. -/
theorem C4_counterexample :
    stageRun .loading [.initSuccess, .beginQuestion, .listenStart, .submitAnswer,
        .feedbackSaved] = some .feedback ∧
    stageStep .feedback (.advance true) = some .question ∧
    specLinearSucc .feedback = some .completed ∧
    InterviewStage.question ≠ InterviewStage.completed := by
  refine ⟨rfl, rfl, rfl, by decide⟩

/-- C4 (amended): every transition of the interview stage machine either
moves to the immediate successor in the linear order loading → ready →
question → listening → processing → feedback → completed, or is one of the
per-question loop-back and error-skip transitions: feedback → question (next
question), processing → question (processing failed, next question), and
processing → completed (processing failed on the last question). -/
theorem C4_stage_transitions :
    ∀ (s : InterviewStage) (e : RoomEvent) (s2 : InterviewStage),
      stageStep s e = some s2 →
      specLinearSucc s = some s2 ∨
      (s = .feedback ∧ s2 = .question) ∨
      (s = .processing ∧ s2 = .question) ∨
      (s = .processing ∧ s2 = .completed) := by
  intro s e s2 h
  cases e with
  | initSuccess => cases s <;> simp_all [stageStep, specLinearSucc]
  | beginQuestion => cases s <;> simp_all [stageStep, specLinearSucc]
  | listenStart => cases s <;> simp_all [stageStep, specLinearSucc]
  | submitAnswer => cases s <;> simp_all [stageStep, specLinearSucc]
  | feedbackSaved => cases s <;> simp_all [stageStep, specLinearSucc]
  | advance hasMore => cases hasMore <;> cases s <;> simp_all [stageStep, specLinearSucc]
  | processFailed hasMore =>
    cases hasMore <;> cases s <;> simp_all [stageStep, specLinearSucc]

/-- C4, witness: the transition out of processing on success moves to
feedback, its immediate successor. -/
theorem C4_witness :
    specLinearSucc .processing = some .feedback ∨
    (InterviewStage.processing = .feedback ∧ InterviewStage.feedback = .question) ∨
    (InterviewStage.processing = .processing ∧ InterviewStage.feedback = .question) ∨
    (InterviewStage.processing = .processing ∧ InterviewStage.feedback = .completed) :=
  C4_stage_transitions .processing .feedbackSaved .feedback rfl

/-- C7, counterexample to the claim as stated: handleEndInterview is not
invoked only on the tick at which timeRemaining reaches 0.  From
timeRemaining = 1 in the listening state the tick reaches 0 and invokes it,
but a further tick from the reachable state with timeRemaining = 0 (the
interview continues when the user cancels the confirm dialog) invokes it
again while timeRemaining stays 0. -/
theorem C7_counterexample :
    timerTick ⟨.listening, false, 1⟩ = (⟨.listening, false, 0⟩, true) ∧
    timerTick ⟨.listening, false, 0⟩ = (⟨.listening, false, 0⟩, true) := by
  refine ⟨rfl, rfl⟩

/-- C7 (amended): the countdown interval ticks only while the stage is
listening and the interview is not paused (otherwise the state is
unchanged); while more than one second remains, a tick decrements
timeRemaining by exactly 1 without ending the interview; when at most one
second remains, the tick clamps timeRemaining to 0 and invokes
handleEndInterview (so it fires on the tick reaching 0 and on every further
tick while the configuration persists); timeRemaining never becomes
negative, on any number of ticks. -/
theorem C7_countdown_timer :
    ∀ (s : TimerState),
      (¬(s.stage = .listening ∧ s.isPaused = false) → timerTick s = (s, false)) ∧
      (s.stage = .listening → s.isPaused = false → 2 ≤ s.timeRemaining →
        (timerTick s).1.timeRemaining = s.timeRemaining - 1 ∧
        (timerTick s).2 = false) ∧
      (s.stage = .listening → s.isPaused = false → s.timeRemaining ≤ 1 →
        (timerTick s).1.timeRemaining = 0 ∧ (timerTick s).2 = true) ∧
      (∀ n : Nat, 0 ≤ s.timeRemaining → 0 ≤ (timerRun s n).timeRemaining) := by
  intro s
  refine ⟨?_, ?_, ?_, ?_⟩
  · intro hno
    rw [timerTick, if_neg hno]
  · intro h1 h2 h3
    rw [timerTick, if_pos ⟨h1, h2⟩, if_neg (by omega)]
    exact ⟨rfl, rfl⟩
  · intro h1 h2 h3
    rw [timerTick, if_pos ⟨h1, h2⟩, if_pos h3]
    exact ⟨rfl, rfl⟩
  · intro n
    induction n generalizing s with
    | zero => intro h; exact h
    | succ k ih =>
      intro h
      rw [timerRun]
      apply ih
      rw [timerTick]
      split_ifs with hc hl
      · simp
      · simp only []
        omega
      · exact h

/-- C7, witness: a tick in the listening state with 90 seconds left
decrements to 89 without ending the interview. -/
theorem C7_witness :
    (timerTick ⟨.listening, false, 90⟩).1.timeRemaining = 90 - 1 ∧
    (timerTick ⟨.listening, false, 90⟩).2 = false :=
  (C7_countdown_timer ⟨.listening, false, 90⟩).2.1 rfl rfl (by decide)

/-- C8: selectQuestionsForInterview requests ceil(0.6 * n) database questions
and n - ceil(0.6 * n) AI questions, and returns a permutation (same elements
with the same multiplicities) of the concatenation of the two fetched lists;
the two requested counts add up to n and the result has length at most n. -/
theorem C8_selection_is_permutation :
    ∀ (α : Type) (rand : Nat → Nat) (cands : List α) (outcome : Nat → Option α)
      (n : Nat),
      List.Perm (selectQuestionsForInterview rand cands outcome n)
        (selectDatabaseQuestions cands (databaseQuestionsCount n) ++
          generateAIQuestions outcome (n - databaseQuestionsCount n)) ∧
      databaseQuestionsCount n + aiQuestionsCount n = n ∧
      (selectQuestionsForInterview rand cands outcome n).length ≤ n := by
  intro α rand cands outcome n
  have hperm : List.Perm (selectQuestionsForInterview rand cands outcome n)
      (selectDatabaseQuestions cands (databaseQuestionsCount n) ++
        generateAIQuestions outcome (n - databaseQuestionsCount n)) :=
    shuffleQuestions_perm rand _
  refine ⟨hperm, ?_, ?_⟩
  · have := databaseQuestionsCount_le n
    rw [aiQuestionsCount]
    omega
  · rw [hperm.length_eq, List.length_append]
    have h1 : (selectDatabaseQuestions cands (databaseQuestionsCount n)).length ≤
        databaseQuestionsCount n := by
      rw [selectDatabaseQuestions]
      exact List.length_take_le _ _
    have h2 : (generateAIQuestions outcome (n - databaseQuestionsCount n)).length ≤
        n - databaseQuestionsCount n := by
      rw [generateAIQuestions]
      calc ((List.range (n - databaseQuestionsCount n)).filterMap outcome).length ≤
          (List.range (n - databaseQuestionsCount n)).length :=
            List.length_filterMap_le _ _
        _ = n - databaseQuestionsCount n := List.length_range _
    have := databaseQuestionsCount_le n
    omega

/-- C10: an answer is auto-submitted only when the silence-check tick finds
the detector initialised, at least 10 seconds of continuous silence
(countdown 0), the user has started speaking, at least 3 seconds of
accumulated speech, and the ref guard not yet set; and over any sequence of
silence-check ticks and speech callbacks the auto-submit fires at most
once per question. -/
theorem C10_auto_submit_guarded :
    (∀ (st : AutoSubmitState) (init : Bool) (silence : ℚ),
      (silenceTick st init silence).2 = true →
      init = true ∧ 10 ≤ silence ∧ st.autoSubmitTriggered = false ∧
      st.hasStartedSpeaking = true ∧ 3 ≤ st.minimumSpeechDuration) ∧
    (∀ es : List ASEvent, countFires resetAutoSubmit es ≤ 1) := by
  constructor
  · intro st init silence h
    rw [silenceTick] at h
    split_ifs at h with h1 h2
    · obtain ⟨hc, hng, hsp, hdur⟩ := h2
      have hs : (10 : ℚ) ≤ silence := by
        by_contra hlt
        push_neg at hlt
        have hpos : (0 : ℚ) < 10 - silence := by linarith
        have hmax : max 0 (10 - silence) = 10 - silence := max_eq_right (le_of_lt hpos)
        rw [hmax] at hc
        linarith
      exact ⟨h1, hs, hng, hsp, hdur⟩
  · intro es
    exact countFires_le_one es resetAutoSubmit

/-- C10, witness: a tick with exactly 10 seconds of silence, speech started
and 3 seconds of speech accumulated satisfies every firing condition. -/
theorem C10_witness :
    (true : Bool) = true ∧ (10 : ℚ) ≤ 10 ∧
    (⟨false, true, 3⟩ : AutoSubmitState).autoSubmitTriggered = false ∧
    (⟨false, true, 3⟩ : AutoSubmitState).hasStartedSpeaking = true ∧
    (3 : ℚ) ≤ (⟨false, true, 3⟩ : AutoSubmitState).minimumSpeechDuration := by
  have hfire : (silenceTick ⟨false, true, 3⟩ true 10).2 = true := by
    rw [silenceTick]
    norm_num
  exact C10_auto_submit_guarded.1 ⟨false, true, 3⟩ true 10 hfire

end PB
